import Mathlib

/-!
Shallow embedding of the "unify" plugin runtime: the plugin registry
(`src/plugins/registry.ts`), the event bus (`src/plugins/eventBus.ts`),
the state store (`src/plugins/state.ts`) and the per-section plugin
manager (`src/plugins/pluginManager.tsx`).

JavaScript `Map` objects and `localStorage` are modelled as association
lists `List (String × β)`: `Map.set` replaces the value in place when the
key is present (keeping its insertion position) and appends otherwise,
`Map.get`/`localStorage.getItem` return the first binding, and
`Map.delete`/`localStorage.removeItem` drop the key.  Iteration order of
`Map.values()` is insertion order, which the association list preserves.
-/

set_option autoImplicit false

/-- Model of `Map.get` / `localStorage.getItem`: first binding for the key. -/
def alookup {β : Type} : List (String × β) → String → Option β
  | [], _ => none
  | (k, v) :: rest, key => if k = key then some v else alookup rest key

/-- Model of `Map.set` / `localStorage.setItem`: replace in place when the
key is present (keeping its position), append otherwise. -/
def aset {β : Type} : List (String × β) → String → β → List (String × β)
  | [], key, v => [(key, v)]
  | (k, w) :: rest, key, v =>
      if k = key then (k, v) :: rest else (k, w) :: aset rest key v

/-- Model of `Map.delete` / `localStorage.removeItem`: drop the key. -/
def aremove {β : Type} : List (String × β) → String → List (String × β)
  | [], _ => []
  | (k, v) :: rest, key =>
      if k = key then aremove rest key else (k, v) :: aremove rest key

/-! ## Data model (`src/plugins/types.ts`, `src/plugins/lifecycle.ts`)

Lifecycle callbacks and React components are opaque to the core, so only
the data the runtime inspects is modelled: a component is represented by
its mount behaviour (`none` = mounts normally, `some msg` = throws `msg`
while being instantiated), and each optional lifecycle hook by whether the
descriptor supplies it. -/

/-- Embeds the `PluginLifecycle` interface: each hook is independently
optional; the hook bodies are opaque. -/
structure PluginLifecycle where
  onMount : Option Unit
  onUnmount : Option Unit
  onUpdate : Option Unit
  deriving DecidableEq, Repr

/-- Embeds the `Plugin` interface.  `sect` is the `section` field
(`section` is a Lean keyword); `component` is the widget's mount
behaviour. -/
structure Plugin where
  id : String
  name : String
  sect : String
  component : Option String
  order : Option Int
  lifecycle : Option PluginLifecycle
  dependencies : List String
  deriving DecidableEq, Repr

/-- Whether the descriptor supplies an `onMount` lifecycle callback. -/
def hasOnMount (p : Plugin) : Bool :=
  match p.lifecycle with
  | some l => l.onMount.isSome
  | none => false

/-! ## Registry (`src/plugins/registry.ts`) -/

/-- The fixed set of valid sections, from
`private sections = new Set(['header', 'sidebar', 'content', 'footer'])`. -/
def validSections : List String := ["header", "sidebar", "content", "footer"]

/-- The `PluginRegistry` class state: its `plugins` map. -/
structure RegistryState where
  plugins : List (String × Plugin)
  deriving DecidableEq, Repr

/-- The registry before any registration. -/
def emptyRegistry : RegistryState := { plugins := [] }

/-- Embeds `PluginRegistry.register`: throws on an invalid section,
otherwise `this.plugins.set(plugin.id, plugin)` (no duplicate-id check). -/
def register (r : RegistryState) (p : Plugin) : Except String RegistryState :=
  if validSections.contains p.sect then
    Except.ok { plugins := aset r.plugins p.id p }
  else
    Except.error ("Invalid section: " ++ p.sect)

/-- Embeds `PluginRegistry.unregister`: `this.plugins.delete(pluginId)`. -/
def unregister (r : RegistryState) (pluginId : String) : RegistryState :=
  { plugins := aremove r.plugins pluginId }

/-- Embeds `PluginRegistry.getPlugin`: `this.plugins.get(pluginId)`. -/
def getPlugin (r : RegistryState) (pluginId : String) : Option Plugin :=
  alookup r.plugins pluginId

/-- Embeds `PluginRegistry.getPluginsBySection`:
`Array.from(this.plugins.values()).filter(p => p.section === section)` —
a plain filter over insertion order, with no sorting. -/
def getPluginsBySection (r : RegistryState) (s : String) : List Plugin :=
  (r.plugins.map Prod.snd).filter (fun p => p.sect = s)

/-! ## Event bus (`src/plugins/eventBus.ts`)

The `PluginEventBus` keeps `private events: Map<string, EventHandler[]>`.
Handler functions are opaque; each handler is identified by a `Nat` (JS
function identity, as tested by `indexOf`), and its behaviour on a payload
is supplied separately to `publish` as `beh : Nat → String → Option String`
(`some msg` = the handler throws `msg`, `none` = it returns normally). -/

/-- The event bus state: event name → array of subscribed handlers. -/
abbrev BusState : Type := List (String × List Nat)

/-- The handler array `publish` would iterate for an event (empty when the
event has no entry). -/
def handlersFor (s : BusState) (e : String) : List Nat :=
  (alookup s e).getD []

/-- Embeds `PluginEventBus.subscribe`: create the entry if missing, then
`this.events.get(event)?.push(handler)`. -/
def subscribe (s : BusState) (e : String) (h : Nat) : BusState :=
  let s' := if (alookup s e).isSome then s else aset s e []
  aset s' e (handlersFor s' e ++ [h])

/-- Removes the first occurrence of `h`, as `indexOf` + `splice(index, 1)`
do (a no-op when `indexOf` returns `-1`). -/
def removeFirst : List Nat → Nat → List Nat
  | [], _ => []
  | x :: xs, h => if x = h then xs else x :: removeFirst xs h

/-- Embeds the unsubscribe token returned by `subscribe`: look up the
handler array for the event; when present, splice out the first occurrence
of the handler; when absent, do nothing. -/
def unsubscribe (s : BusState) (e : String) (h : Nat) : BusState :=
  match alookup s e with
  | some hs => aset s e (removeFirst hs h)
  | none => s

/-- What one `publish` call produces: the handler invocations it performs
(each handler with the payload it received, in order) and the
`console.error` lines from its per-handler `catch` blocks.  `publish`
itself always returns normally — no error escapes to the caller, which the
total return type records. -/
structure PublishResult where
  invoked : List (Nat × String)
  logged : List String
  deriving DecidableEq, Repr

/-- The `handlers.forEach` loop of `publish`: each handler is invoked with
the payload inside `try { handler(data) } catch (error) { console.error(…) }`,
so a throwing handler is logged and the loop continues. -/
def runHandlers (handlers : List Nat) (beh : Nat → String → Option String)
    (payload : String) : PublishResult :=
  match handlers with
  | [] => { invoked := [], logged := [] }
  | h :: rest =>
      let r := runHandlers rest beh payload
      { invoked := (h, payload) :: r.invoked,
        logged :=
          (match beh h payload with
           | some msg => ["Error in event handler: " ++ msg]
           | none => []) ++ r.logged }

/-- Embeds `PluginEventBus.publish`: fetch the handler array for the event
and run the `forEach` loop over it. -/
def publish (s : BusState) (e : String) (beh : Nat → String → Option String)
    (payload : String) : PublishResult :=
  runHandlers (handlersFor s e) beh payload

/-- Embeds `PluginEventBus.clear`: `this.events.delete(event)`. -/
def clearEvent (s : BusState) (e : String) : BusState :=
  aremove s e

/-- Embeds `PluginEventBus.clearAll`: `this.events.clear()`. -/
def clearAll (_ : BusState) : BusState := []

/-! ## State store (`src/plugins/state.ts`)

`localStorage` is the external durable medium, modelled as
`Storage = List (String × String)`.  `JSON.stringify` and `JSON.parse` are
host builtins; they are modelled by a codec `encode : α → Option String`
(`none` = `stringify` throws, e.g. on a circular structure) and
`decode : String → Option α` (`none` = `parse` throws on corrupt data). -/

/-- The backing key-value medium (`localStorage`). -/
abbrev Storage : Type := List (String × String)

/-- The empty medium. -/
def emptyStorage : Storage := []

/-- The key `PluginStateManager` namespaces a plugin's state under:
`` `plugin_${pluginId}_state` ``. -/
def stateKey (pluginId : String) : String :=
  "plugin_" ++ pluginId ++ "_state"

/-- Outcome of one `saveState` call: the medium afterwards, the
`console.error` lines, and what (if anything) escaped to the caller —
always `none`, because the `catch` block only logs. -/
structure SaveResult where
  storage : Storage
  loggedErrors : List String
  thrown : Option String
  deriving DecidableEq, Repr

/-- Embeds `PluginStateManager.saveState`:
`try { localStorage.setItem(key, JSON.stringify(state)) } catch (error)
{ console.error(…) }`.  A serialization failure reaches the `catch` before
`setItem` runs, so the medium is unchanged and only a log line is. -/
def saveState {α : Type} (encode : α → Option String) (st : Storage)
    (pluginId : String) (state : α) : SaveResult :=
  match encode state with
  | some str =>
      { storage := aset st (stateKey pluginId) str, loggedErrors := [], thrown := none }
  | none =>
      { storage := st,
        loggedErrors := ["Failed to save state for plugin " ++ pluginId],
        thrown := none }

/-- Embeds `PluginStateManager.loadState`:
`const state = localStorage.getItem(key); return state ? JSON.parse(state) : null`
inside a `try` whose `catch` returns `null`.  The truthiness test makes an
empty stored string behave as absent; a `JSON.parse` failure is caught and
becomes `null`. -/
def loadState {α : Type} (decode : String → Option α) (st : Storage)
    (pluginId : String) : Option α :=
  match alookup st (stateKey pluginId) with
  | none => none
  | some str => if str = "" then none else decode str

/-- Embeds `PluginStateManager.clearState`: `localStorage.removeItem(key)`. -/
def clearState (st : Storage) (pluginId : String) : Storage :=
  aremove st (stateKey pluginId)

/-! ## Plugin manager (`src/plugins/pluginManager.tsx`)

The `PluginManager` component, for its `section` prop: on mount it runs
`loadPlugins` (restore phase), subscribes to `plugin:stateChange`, and
renders each plugin of the section inside its own `ErrorBoundary`. -/

/-- The key the manager reads and writes directly on `localStorage`:
`` `plugin_state_${pluginId}` `` — note the different shape from
`stateKey`. -/
def managerStateKey (pluginId : String) : String :=
  "plugin_state_" ++ pluginId

/-- Observable actions of the manager's restore phase. -/
inductive Effect where
  /-- A `localStorage.getItem` call with the given key. -/
  | getState (key : String)
  /-- A `pluginEventBus.publish(event, payload)` call; the payload is kept
  as the raw stored string (the source publishes `JSON.parse` of it). -/
  | publishRestore (event : String) (payload : String)
  /-- An invocation of a descriptor's `lifecycle.onMount` — never emitted
  by the source, which contains no call to any lifecycle hook. -/
  | invokeOnMount (pluginId : String)
  deriving DecidableEq, Repr

/-- Embeds the `loadPlugins` body of `PluginManager`: for each plugin of
the section, read `` `plugin_state_${plugin.id}` ``; if the stored value is
truthy, publish `` `${plugin.id}:restore` `` with the parsed state.  No
lifecycle hook is invoked anywhere in the component. -/
def loadPluginsEffects (st : Storage) (plugins : List Plugin) : List Effect :=
  plugins.flatMap (fun p =>
    Effect.getState (managerStateKey p.id) ::
      (match alookup st (managerStateKey p.id) with
       | some s => if s = "" then [] else [Effect.publishRestore (p.id ++ ":restore") s]
       | none => []))

/-- Embeds the manager's `plugin:stateChange` handler: it calls
`localStorage.setItem` with the key `plugin_state_` ++ `pluginId` and
`JSON.stringify(state)` (the serialized state is passed in as a string). -/
def managerStateChangeSave (st : Storage) (pluginId : String) (stateStr : String) :
    Storage :=
  aset st (managerStateKey pluginId) stateStr

/-- What one plugin slot of the rendered section shows. -/
inductive SlotResult where
  /-- The plugin's component mounted normally. -/
  | mounted (pluginId : String)
  /-- The `ErrorBoundary` caught a throw and rendered its
  "Something went wrong with this plugin." fallback. -/
  | failurePlaceholder (pluginId : String)
  deriving DecidableEq, Repr

/-- Embeds one `<ErrorBoundary><PluginComponent /></ErrorBoundary>`
wrapper: if the component throws while being instantiated,
`getDerivedStateFromError` sets `hasError` and the boundary renders the
fallback for that slot; otherwise the component is mounted. -/
def renderWithBoundary (p : Plugin) : SlotResult :=
  match p.component with
  | none => SlotResult.mounted p.id
  | some _ => SlotResult.failurePlaceholder p.id

/-- Embeds the render output of `PluginManager` for a section: each plugin
returned by `getPluginsBySection` gets its own boundary-wrapped slot.
Rendering neither reads nor writes the event bus or the storage medium,
which the pass-through of `bus` and `st` records. -/
def renderZone (r : RegistryState) (bus : BusState) (st : Storage) (z : String) :
    List SlotResult × BusState × Storage :=
  ((getPluginsBySection r z).map renderWithBoundary, bus, st)

/-! ## Concrete descriptors and states used in scenario proofs -/

deriving instance DecidableEq for Except

/-- A first descriptor under id `alpha`. -/
def pluginAlphaV1 : Plugin :=
  { id := "alpha", name := "first", sect := "content", component := none,
    order := none, lifecycle := none, dependencies := [] }

/-- A second, different descriptor reusing the id `alpha`. -/
def pluginAlphaV2 : Plugin :=
  { id := "alpha", name := "second", sect := "content", component := none,
    order := none, lifecycle := none, dependencies := [] }

/-- A registry already holding `pluginAlphaV1`. -/
def registryWithAlpha : RegistryState := { plugins := [("alpha", pluginAlphaV1)] }

/-- The registry after re-registering id `alpha` with `pluginAlphaV2`. -/
def registryWithAlphaV2 : RegistryState := { plugins := [("alpha", pluginAlphaV2)] }

/-- Plugin `A` of the ordering scenario: section `content`, `order` 2. -/
def pluginAord2 : Plugin :=
  { id := "A", name := "A", sect := "content", component := none,
    order := some 2, lifecycle := none, dependencies := [] }

/-- Plugin `B` of the ordering scenario: section `content`, `order` 1. -/
def pluginBord1 : Plugin :=
  { id := "B", name := "B", sect := "content", component := none,
    order := some 1, lifecycle := none, dependencies := [] }

/-- The registry after registering `A` then `B`. -/
def registryAB : RegistryState :=
  { plugins := [("A", pluginAord2), ("B", pluginBord1)] }

/-- Plugin `X` of the isolation scenario: its component throws during
mount. -/
def pluginX : Plugin :=
  { id := "x", name := "X", sect := "sidebar", component := some "boom",
    order := none, lifecycle := none, dependencies := [] }

/-- Plugin `Y` of the isolation scenario: its component mounts normally. -/
def pluginY : Plugin :=
  { id := "y", name := "Y", sect := "sidebar", component := none,
    order := none, lifecycle := none, dependencies := [] }

/-- A registry holding `X` and `Y`, both in section `sidebar`. -/
def registryXY : RegistryState :=
  { plugins := [("x", pluginX), ("y", pluginY)] }

/-- The counter descriptor of the restore scenario, supplying an `onMount`
lifecycle callback. -/
def pluginCounter : Plugin :=
  { id := "counter", name := "Counter", sect := "content", component := none,
    order := some 1,
    lifecycle := some { onMount := some (), onUnmount := none, onUpdate := none },
    dependencies := [] }

/-- A storage medium holding saved state for the counter under the
manager's key. -/
def storageCounter : Storage := [("plugin_state_counter", "5")]

/-- Recognizes an `invokeOnMount` effect. -/
def isOnMountEffect : Effect → Bool
  | Effect.invokeOnMount _ => true
  | _ => false

/-! ## Association-list lemmas -/

theorem alookup_aset_self {β : Type} (m : List (String × β)) (k : String) (v : β) :
    alookup (aset m k v) k = some v := by
  induction m with
  | nil => simp [aset, alookup]
  | cons kv rest ih =>
      obtain ⟨k', w⟩ := kv
      by_cases h : k' = k
      · simp [aset, alookup, h]
      · simp [aset, alookup, h, ih]

theorem alookup_aset_ne {β : Type} (m : List (String × β)) (k k' : String) (v : β)
    (h : k' ≠ k) : alookup (aset m k v) k' = alookup m k' := by
  induction m with
  | nil => simp [aset, alookup, Ne.symm h]
  | cons kv rest ih =>
      obtain ⟨k₀, w⟩ := kv
      by_cases h0 : k₀ = k
      · subst h0
        simp [aset, alookup, Ne.symm h]
      · simp only [aset, if_neg h0, alookup]
        by_cases h1 : k₀ = k'
        · simp [h1]
        · simp [h1, ih]

theorem alookup_aremove_self {β : Type} (m : List (String × β)) (k : String) :
    alookup (aremove m k) k = none := by
  induction m with
  | nil => simp [aremove, alookup]
  | cons kv rest ih =>
      obtain ⟨k', w⟩ := kv
      by_cases h : k' = k
      · simp [aremove, h, ih]
      · simp [aremove, alookup, h, ih]

theorem aset_aset_self {β : Type} (m : List (String × β)) (k : String) (v w : β) :
    aset (aset m k v) k w = aset m k w := by
  induction m with
  | nil => simp [aset]
  | cons kv rest ih =>
      obtain ⟨k', u⟩ := kv
      by_cases h : k' = k
      · simp [aset, h]
      · simp [aset, h, ih]

/-! ## Event-bus lemmas -/

theorem handlersFor_aset (s : BusState) (e : String) (hs : List Nat) :
    handlersFor (aset s e hs) e = hs := by
  simp [handlersFor, alookup_aset_self]

theorem subscribe_eq (s : BusState) (e : String) (h : Nat) :
    subscribe s e h = aset s e (handlersFor s e ++ [h]) := by
  unfold subscribe
  by_cases hs : (alookup s e).isSome
  · simp [hs]
  · have h0 : alookup s e = none := Option.not_isSome_iff_eq_none.mp hs
    simp [hs, h0, handlersFor, alookup_aset_self, aset_aset_self]

theorem removeFirst_of_not_mem (l : List Nat) (h : Nat) (hn : h ∉ l) :
    removeFirst l h = l := by
  induction l with
  | nil => simp [removeFirst]
  | cons x xs ih =>
      have hx : x ≠ h := fun hxh => hn (hxh ▸ List.mem_cons_self x xs)
      have hxs : h ∉ xs := fun hmem => hn (List.mem_cons_of_mem x hmem)
      simp [removeFirst, hx, ih hxs]

theorem removeFirst_append_singleton (l : List Nat) (h : Nat) (hn : h ∉ l) :
    removeFirst (l ++ [h]) h = l := by
  induction l with
  | nil => simp [removeFirst]
  | cons x xs ih =>
      have hx : x ≠ h := fun hxh => hn (hxh ▸ List.mem_cons_self x xs)
      have hxs : h ∉ xs := fun hmem => hn (List.mem_cons_of_mem x hmem)
      simp [removeFirst, hx, ih hxs]

theorem runHandlers_invoked (handlers : List Nat)
    (beh : Nat → String → Option String) (p : String) :
    (runHandlers handlers beh p).invoked = handlers.map (fun h => (h, p)) := by
  induction handlers with
  | nil => simp [runHandlers]
  | cons h rest ih => simp [runHandlers, ih]

theorem runHandlers_logged_length (handlers : List Nat)
    (beh : Nat → String → Option String) (p : String) :
    (runHandlers handlers beh p).logged.length
      = (handlers.filter (fun h => (beh h p).isSome)).length := by
  induction handlers with
  | nil => simp [runHandlers]
  | cons h rest ih =>
      cases hb : beh h p with
      | none => simp [runHandlers, hb, ih]
      | some msg => simp [runHandlers, hb, ih]

theorem publish_invoked (s : BusState) (e : String)
    (beh : Nat → String → Option String) (p : String) :
    (publish s e beh p).invoked = (handlersFor s e).map (fun h => (h, p)) :=
  runHandlers_invoked (handlersFor s e) beh p

/-- Counts of a fixed-payload invocation pair reduce to counts of the
handler itself. -/
theorem count_pair_map (l : List Nat) (h : Nat) (p : String) :
    (l.map (fun x => (x, p))).count (h, p) = l.count h := by
  induction l with
  | nil => simp
  | cons x xs ih =>
      by_cases hx : x = h <;> simp [List.count_cons, hx, ih]

/-- C1, counterexample: re-registering the already-present id `alpha`
does not fail with any error — it succeeds and silently replaces the
stored descriptor, so the previously registered descriptor is gone. -/
theorem register_duplicate_counterexample :
    register registryWithAlpha pluginAlphaV2 = Except.ok registryWithAlphaV2
  ∧ getPlugin registryWithAlphaV2 "alpha" ≠ some pluginAlphaV1 := by
  exact ⟨by decide, by decide⟩

/-- C1, amended: `register` with a duplicate id (and a valid section)
always succeeds — there is no `DuplicateIdError` — and replaces the
existing descriptor with the new one (last `register` wins), leaving
every other id's entry unchanged. -/
theorem register_duplicate_overwrites (r : RegistryState) (p q : Plugin)
    (hdup : getPlugin r q.id = some p)
    (hsect : validSections.contains q.sect = true) :
    register r q = Except.ok { plugins := aset r.plugins q.id q }
  ∧ getPlugin { plugins := aset r.plugins q.id q } q.id = some q
  ∧ ∀ pid, pid ≠ q.id →
      getPlugin { plugins := aset r.plugins q.id q } pid = getPlugin r pid := by
  refine ⟨?_, ?_, ?_⟩
  · have hmem : q.sect ∈ validSections := by simpa using hsect
    simp [register, hmem]
  · simp [getPlugin, alookup_aset_self]
  · intro pid hne
    simp [getPlugin, alookup_aset_ne _ _ _ _ hne]

/-- C1, witness: the amended statement instantiated on the concrete
duplicate registration of id `alpha`. -/
theorem register_duplicate_overwrites_witness :
    getPlugin registryWithAlpha pluginAlphaV2.id = some pluginAlphaV1
  ∧ validSections.contains pluginAlphaV2.sect = true
  ∧ register registryWithAlpha pluginAlphaV2
      = Except.ok { plugins := aset registryWithAlpha.plugins pluginAlphaV2.id pluginAlphaV2 }
  ∧ getPlugin { plugins := aset registryWithAlpha.plugins pluginAlphaV2.id pluginAlphaV2 }
      pluginAlphaV2.id = some pluginAlphaV2
  ∧ getPlugin { plugins := aset registryWithAlpha.plugins pluginAlphaV2.id pluginAlphaV2 }
      "beta" = getPlugin registryWithAlpha "beta" := by
  have w := register_duplicate_overwrites registryWithAlpha pluginAlphaV1 pluginAlphaV2
    (by decide) (by decide)
  exact ⟨by decide, by decide, w.1, w.2.1, w.2.2 "beta" (by decide)⟩

/-- C2: when a zone holds a plugin `X` whose component throws during
mount and a plugin `Y` whose component mounts normally, rendering the
zone yields the error-boundary failure placeholder in `X`'s slot and a
normally mounted `Y` in `Y`'s slot, and the event-bus subscriptions and
the persisted state are left untouched. -/
theorem renderZone_isolates_failure (r : RegistryState) (bus : BusState)
    (st : Storage) (z : String) (i j : Nat) (X Y : Plugin)
    (hX : (getPluginsBySection r z)[i]? = some X)
    (hY : (getPluginsBySection r z)[j]? = some Y)
    (hXc : X.component.isSome = true)
    (hYc : Y.component = none) :
    (renderZone r bus st z).1[i]? = some (SlotResult.failurePlaceholder X.id)
  ∧ (renderZone r bus st z).1[j]? = some (SlotResult.mounted Y.id)
  ∧ (renderZone r bus st z).2.1 = bus
  ∧ (renderZone r bus st z).2.2 = st := by
  refine ⟨?_, ?_, rfl, rfl⟩
  · have hm : (renderZone r bus st z).1[i]?
        = ((getPluginsBySection r z)[i]?).map renderWithBoundary := by
      simp [renderZone, List.getElem?_map]
    obtain ⟨msg, hmsg⟩ := Option.isSome_iff_exists.mp hXc
    rw [hm, hX]
    simp [renderWithBoundary, hmsg]
  · have hm : (renderZone r bus st z).1[j]?
        = ((getPluginsBySection r z)[j]?).map renderWithBoundary := by
      simp [renderZone, List.getElem?_map]
    rw [hm, hY]
    simp [renderWithBoundary, hYc]

/-- C2, witness: the scenario instantiated on the concrete zone `sidebar`
holding the throwing `X` and the healthy `Y`. -/
theorem renderZone_isolates_failure_witness :
    (getPluginsBySection registryXY "sidebar")[0]? = some pluginX
  ∧ (getPluginsBySection registryXY "sidebar")[1]? = some pluginY
  ∧ pluginX.component.isSome = true
  ∧ pluginY.component = none
  ∧ (renderZone registryXY [] [] "sidebar").1[0]?
      = some (SlotResult.failurePlaceholder pluginX.id)
  ∧ (renderZone registryXY [] [] "sidebar").1[1]?
      = some (SlotResult.mounted pluginY.id)
  ∧ (renderZone registryXY [] [] "sidebar").2.1 = ([] : BusState)
  ∧ (renderZone registryXY [] [] "sidebar").2.2 = ([] : Storage) := by
  have w := renderZone_isolates_failure registryXY [] [] "sidebar" 0 1 pluginX pluginY
    (by decide) (by decide) (by decide) (by decide)
  exact ⟨by decide, by decide, by decide, by decide, w.1, w.2.1, w.2.2.1, w.2.2.2⟩

/-- C3, code-bug evidence: after registering `A` (section `content`,
order 2) and then `B` (section `content`, order 1), the section query
returns `[A, B]` — registration order with the `order` field ignored —
not the `[B, A]` the `order` field calls for. -/
theorem getPluginsBySection_ignores_order :
    register emptyRegistry pluginAord2 = Except.ok { plugins := [("A", pluginAord2)] }
  ∧ register { plugins := [("A", pluginAord2)] } pluginBord1 = Except.ok registryAB
  ∧ getPluginsBySection registryAB "content" = [pluginAord2, pluginBord1]
  ∧ getPluginsBySection registryAB "content" ≠ [pluginBord1, pluginAord2] := by
  exact ⟨by decide, by decide, by decide, by decide⟩

/-- C4: subscribing a fresh handler then publishing invokes it exactly
once with the payload; after invoking the returned unsubscribe token a
publish no longer invokes it; and invoking the token a second time
leaves the bus state unchanged. -/
theorem subscribe_publish_unsubscribe_exactly_once (s : BusState) (e : String)
    (h : Nat) (beh : Nat → String → Option String) (p : String)
    (hfresh : h ∉ handlersFor s e) :
    (publish (subscribe s e h) e beh p).invoked.count (h, p) = 1
  ∧ (publish (unsubscribe (subscribe s e h) e h) e beh p).invoked.count (h, p) = 0
  ∧ unsubscribe (unsubscribe (subscribe s e h) e h) e h
      = unsubscribe (subscribe s e h) e h := by
  have hcount0 : (handlersFor s e).count h = 0 := List.count_eq_zero.mpr hfresh
  have hsub : subscribe s e h = aset s e (handlersFor s e ++ [h]) := subscribe_eq s e h
  have hhf1 : handlersFor (subscribe s e h) e = handlersFor s e ++ [h] := by
    rw [hsub]; exact handlersFor_aset s e _
  have huns : unsubscribe (subscribe s e h) e h = aset s e (handlersFor s e) := by
    have hl : alookup (subscribe s e h) e = some (handlersFor s e ++ [h]) := by
      rw [hsub]; exact alookup_aset_self s e _
    simp only [unsubscribe, hl]
    rw [removeFirst_append_singleton _ _ hfresh, hsub, aset_aset_self]
  refine ⟨?_, ?_, ?_⟩
  · rw [publish_invoked, hhf1, count_pair_map, List.count_append, hcount0]
    simp
  · have hhf2 : handlersFor (unsubscribe (subscribe s e h) e h) e = handlersFor s e := by
      rw [huns]; exact handlersFor_aset s e _
    rw [publish_invoked, hhf2, count_pair_map, hcount0]
  · rw [huns]
    have hl2 : alookup (aset s e (handlersFor s e)) e = some (handlersFor s e) :=
      alookup_aset_self s e _
    simp only [unsubscribe, hl2]
    rw [removeFirst_of_not_mem _ _ hfresh, aset_aset_self]

/-- C4, witness: the roundtrip instantiated on an empty bus, event
`evt`, handler `3` and payload `hello`. -/
theorem subscribe_publish_unsubscribe_exactly_once_witness :
    (3 ∉ handlersFor [] "evt")
  ∧ (publish (subscribe [] "evt" 3) "evt" (fun _ _ => none) "hello").invoked.count
      (3, "hello") = 1
  ∧ (publish (unsubscribe (subscribe [] "evt" 3) "evt" 3) "evt"
      (fun _ _ => none) "hello").invoked.count (3, "hello") = 0
  ∧ unsubscribe (unsubscribe (subscribe [] "evt" 3) "evt" 3) "evt" 3
      = unsubscribe (subscribe [] "evt" 3) "evt" 3 := by
  have w := subscribe_publish_unsubscribe_exactly_once [] "evt" 3
    (fun _ _ => none) "hello" (by decide)
  exact ⟨by decide, w.1, w.2.1, w.2.2⟩

/-- C5: a publish invokes every currently subscribed handler with the
payload, in subscription order, whatever each handler's behaviour —
handlers that throw are caught inside the loop (one log line each), so
they never prevent the remaining handlers from running, and `publish`
always returns normally to its caller. -/
theorem publish_isolates_handler_errors (s : BusState) (e : String)
    (beh : Nat → String → Option String) (p : String) :
    (publish s e beh p).invoked = (handlersFor s e).map (fun h => (h, p))
  ∧ (publish s e beh p).logged.length
      = ((handlersFor s e).filter (fun h => (beh h p).isSome)).length :=
  ⟨runHandlers_invoked (handlersFor s e) beh p,
   runHandlers_logged_length (handlersFor s e) beh p⟩

/-- C6, code-bug evidence: for a zone holding the counter descriptor —
which supplies an `onMount` callback — the manager's restore phase reads
the saved state and publishes the `counter:restore` event, but emits no
`onMount` invocation at all. -/
theorem loadPlugins_restores_but_never_invokes_onMount :
    hasOnMount pluginCounter = true
  ∧ loadPluginsEffects storageCounter [pluginCounter]
      = [Effect.getState "plugin_state_counter",
         Effect.publishRestore "counter:restore" "5"]
  ∧ (loadPluginsEffects storageCounter [pluginCounter]).all
      (fun eff => !(isOnMountEffect eff)) = true := by
  exact ⟨by decide, by decide, by decide⟩

/-- C7, counterexample: for plugin id `counter`, the key the manager
writes on a `plugin:stateChange` event (`plugin_state_counter`) is not
the State Store key `plugin_counter_state`, so state saved by the
manager is not found by the Store's `loadState`. -/
theorem managerStateKey_mismatch_counterexample :
    managerStateKey "counter" ≠ stateKey "counter"
  ∧ loadState (fun str => some str)
      (managerStateChangeSave emptyStorage "counter" "5") "counter" = none := by
  exact ⟨by decide, by decide⟩

/-- C7, amended: each component's key scheme is collision-free on its own
(`stateKey` and `managerStateKey` are both injective), but the State
Store namespaces under `plugin_<id>_state` while the Lifecycle Manager
uses `plugin_state_<id>`, and the two differ for id `counter`, so state
saved by the Manager is not found by the Store. -/
theorem stateKey_injective_but_schemes_differ :
    (∀ a b : String, stateKey a = stateKey b → a = b)
  ∧ (∀ a b : String, managerStateKey a = managerStateKey b → a = b)
  ∧ managerStateKey "counter" ≠ stateKey "counter" := by
  refine ⟨?_, ?_, by decide⟩
  · intro a b hab
    have hd : "plugin_".data ++ (a.data ++ "_state".data)
        = "plugin_".data ++ (b.data ++ "_state".data) := by
      have hc := congrArg String.data hab
      simpa [stateKey, String.data_append, List.append_assoc] using hc
    have h1 : a.data ++ "_state".data = b.data ++ "_state".data :=
      List.append_cancel_left hd
    exact congrArg String.mk (List.append_cancel_right h1)
  · intro a b hab
    have hd : "plugin_state_".data ++ a.data = "plugin_state_".data ++ b.data := by
      have hc := congrArg String.data hab
      simpa [managerStateKey, String.data_append] using hc
    exact congrArg String.mk (List.append_cancel_left hd)

/-- C7, witness: the amended statement applied at the concrete id
`counter`. -/
theorem stateKey_injective_but_schemes_differ_witness :
    ("counter" : String) = "counter" :=
  stateKey_injective_but_schemes_differ.1 "counter" "counter" rfl

/-- C8, code-bug evidence: when serialization fails (the encoder throws,
as `JSON.stringify` does on a circular value), `saveState` catches the
error, writes nothing, logs one line — and returns normally, reporting
nothing to its caller, although its own doc comment says it throws. -/
theorem saveState_swallows_serialization_failure :
    saveState (fun _ : Unit => none) emptyStorage "p" ()
      = { storage := emptyStorage,
          loggedErrors := ["Failed to save state for plugin p"],
          thrown := none } := by
  decide

/-- C9: for any codec that round-trips the state value (the meaning of
"serializable") to a non-empty string, `saveState` then `loadState`
returns a value equal to the one saved, and `clearState` then
`loadState` returns the absent marker. -/
theorem saveState_loadState_roundtrip {α : Type} (encode : α → Option String)
    (decode : String → Option α) (st : Storage) (pid : String) (s : α)
    (str : String) (henc : encode s = some str) (hne : str ≠ "")
    (hdec : decode str = some s) :
    loadState decode (saveState encode st pid s).storage pid = some s
  ∧ loadState decode (clearState st pid) pid = none := by
  constructor
  · simp [saveState, henc, loadState, alookup_aset_self, hne, hdec]
  · simp [clearState, loadState, alookup_aremove_self]

/-- C9, witness: the roundtrip instantiated with the boolean JSON codec
(`true` ↦ `"true"`, `false` ↦ `"false"`) saving `true` for plugin
`counter` into the empty medium. -/
theorem saveState_loadState_roundtrip_witness :
    (fun b : Bool => some (if b then "true" else "false")) true = some "true"
  ∧ ("true" : String) ≠ ""
  ∧ (fun str : String =>
      if str = "true" then some true
      else if str = "false" then some false else none) "true" = some true
  ∧ loadState (fun str =>
      if str = "true" then some true
      else if str = "false" then some false else none)
      (saveState (fun b : Bool => some (if b then "true" else "false"))
        emptyStorage "counter" true).storage "counter" = some true
  ∧ loadState (fun str =>
      if str = "true" then some true
      else if str = "false" then some false else none)
      (clearState emptyStorage "counter") "counter" = none := by
  have w := saveState_loadState_roundtrip
    (fun b : Bool => some (if b then "true" else "false"))
    (fun str =>
      if str = "true" then some true
      else if str = "false" then some false else none)
    emptyStorage "counter" true "true" rfl (by decide) rfl
  exact ⟨rfl, by decide, rfl, w.1, w.2⟩
